import Mathlib

/-!
Shallow embedding of the Thorlabs CHROLIS device adapter
(src/DeviceAdapters/ThorlabsCHROLIS/ThorlabsChrolis.cpp): the LED
bitmask codec, the status decoding and the per-iteration behaviour of
the hub status polling thread, and the property get/set handlers of the
LED state device and the shutter.  Replies of the hardware facade and
of the host framework are modelled by an explicit environment record
fixing the reply of each facade call a single handler invocation makes,
and each handler returns its successor state together with the list of
values it republished and the list of hardware writes it attempted.
-/

namespace Chrolis

/-- Modelled from the spec: NUM_LEDS is declared in ThorlabsChrolis.h,
which is not among the sources; the spec fixes N = 6 channels. -/
def NUM_LEDS : Nat := 6

/-- VISA boolean false, the value 0. -/
def VI_FALSE : Nat := 0

/-- VISA boolean true, the value 1 (a C++ bool cast to ViBoolean). -/
def VI_TRUE : Nat := 1

/-- Micro-Manager success return code. -/
def DEVICE_OK : Nat := 0

/-- Modelled from the spec: the numeric error codes are declared in
ThorlabsChrolis.h, which is not among the sources.  The adapter logic
only needs them to be non-zero and pairwise distinct; the numerals here
are arbitrary.  This one is the HubUnavailable error. -/
def ERR_HUB_NOT_AVAILABLE : Nat := 14001

/-- Modelled from the spec: the DeviceUnavailable error code. -/
def ERR_CHROLIS_NOT_AVAIL : Nat := 14002

/-- Modelled from the spec: the ParamNotValid error code. -/
def ERR_PARAM_NOT_VALID : Nat := 14003

/-- EncodeLEDStatesInBits: folds over the channel indices in order; bit
i of the result is set exactly when channel i is not VI_FALSE (any
non-zero ViBoolean is first normalised to 0 or 1, as in the source). -/
def EncodeLEDStatesInBits (states : Fin NUM_LEDS → Nat) : Nat :=
  (List.finRange NUM_LEDS).foldl
    (fun ret i => ret ||| ((if states i ≠ VI_FALSE then 1 else 0) <<< (i : Nat))) 0

/-- DecodeLEDStatesFromBits: channel i of the result is bit i of the
argument, as a ViBoolean (the C++ bool converts to 0 or 1). -/
def DecodeLEDStatesFromBits (bits : Nat) : Fin NUM_LEDS → Nat :=
  fun i => if bits &&& (1 <<< (i : Nat)) ≠ 0 then VI_TRUE else VI_FALSE

/-- One conditional append block of the status decoding: when the bit
condition holds, a separating comma is inserted when the accumulated
message is non-empty and the condition text is appended; otherwise the
message is unchanged. -/
def appendCondition (cond : Prop) [Decidable cond] (message text : String) : String :=
  if cond then (if message.length > 0 then message ++ ", " else message) ++ text
  else message

/-- Message state after the bit 0 block of the polling thread decoding
(the source appends with no separator guard there; the accumulator is
still empty at that point). -/
def statusAfterBit0 (curStatus : Nat) : String :=
  if curStatus &&& (1 <<< 0) ≥ 1 then "" ++ "Box is Open" else ""

/-- Message state after the bit 1 block. -/
def statusAfterBit1 (curStatus : Nat) : String :=
  appendCondition (curStatus &&& (1 <<< 1) ≥ 1) (statusAfterBit0 curStatus) "LLG not Connected"

/-- Message state after the bit 2 block. -/
def statusAfterBit2 (curStatus : Nat) : String :=
  appendCondition (curStatus &&& (1 <<< 2) ≥ 1) (statusAfterBit1 curStatus) "Interlock is Open"

/-- Message state after the bit 3 block. -/
def statusAfterBit3 (curStatus : Nat) : String :=
  appendCondition (curStatus &&& (1 <<< 3) ≥ 1) (statusAfterBit2 curStatus) "Using Default Adjustment"

/-- Message state after the bit 4 block. -/
def statusAfterBit4 (curStatus : Nat) : String :=
  appendCondition (curStatus &&& (1 <<< 4) ≥ 1) (statusAfterBit3 curStatus) "Box Overheated"

/-- Message state after the bit 5 block. -/
def statusAfterBit5 (curStatus : Nat) : String :=
  appendCondition (curStatus &&& (1 <<< 5) ≥ 1) (statusAfterBit4 curStatus) "LED Overheated"

/-- Message state after the bit 6 block. -/
def statusAfterBit6 (curStatus : Nat) : String :=
  appendCondition (curStatus &&& (1 <<< 6) ≥ 1) (statusAfterBit5 curStatus) "Invalid Box Setup"

/-- The status decoding performed inline by StatusChangedPollingThread
on the code named curStatus there: code 0 gives the nominal text; a
non-zero code accumulates the texts of its set bits in order and falls
back to the unknown-status text when the accumulator stayed empty. -/
def statusMessage (curStatus : Nat) : String :=
  if curStatus = 0 then "No Error"
  else if (statusAfterBit6 curStatus).length = 0 then "Unknown Status"
  else statusAfterBit6 curStatus

/-- Facade replies consumed by one iteration of the polling thread. -/
structure PollEnv where
  isDeviceConnected : Bool
  getDeviceStatusErr : Nat
  deviceStatus : Nat
  getLEDEnableStates : Option (Fin NUM_LEDS → Nat)

/-- Observable outcome of one iteration of the polling thread. -/
structure PollResult where
  currentDeviceStatusCode : Nat
  threadRunning : Bool
  devicePropertyPublished : Option String
  stateCallbackCalls : List (Int × Int)
  shutterCallbackCalls : List (Int × Int)

/-- One iteration of ChrolisHub StatusChangedPollingThread, given the
previously stored status code.  When the device is not connected the
body is skipped.  A failed status read stops the thread.  Otherwise the
new code is stored, the decoding of the previously stored code is
republished to the Device Status property, and when the code changed
and the previously stored code was non-zero the enable states are
re-read and pushed through the state callback slot as one aggregate
value followed by the six channel values; a failed re-read only logs. -/
def StatusChangedPollingThread_iteration (env : PollEnv) (curCode : Nat) : PollResult :=
  if !env.isDeviceConnected then
    { currentDeviceStatusCode := curCode, threadRunning := true,
      devicePropertyPublished := none, stateCallbackCalls := [], shutterCallbackCalls := [] }
  else if env.getDeviceStatusErr ≠ 0 then
    { currentDeviceStatusCode := curCode, threadRunning := false,
      devicePropertyPublished := none, stateCallbackCalls := [], shutterCallbackCalls := [] }
  else
    let tempStatus := env.deviceStatus
    let curStatus := curCode
    let statusChanged := curStatus ≠ tempStatus
    let message := statusMessage curStatus
    let pushes :=
      if statusChanged then
        if curStatus ≠ 0 then
          match env.getLEDEnableStates with
          | none => []
          | some tempEnableStates =>
            [((0 : Int), (EncodeLEDStatesInBits tempEnableStates : Int)),
             ((1 : Int), (tempEnableStates ⟨0, by decide⟩ : Int)),
             ((2 : Int), (tempEnableStates ⟨1, by decide⟩ : Int)),
             ((3 : Int), (tempEnableStates ⟨2, by decide⟩ : Int)),
             ((4 : Int), (tempEnableStates ⟨3, by decide⟩ : Int)),
             ((5 : Int), (tempEnableStates ⟨4, by decide⟩ : Int)),
             ((6 : Int), (tempEnableStates ⟨5, by decide⟩ : Int))]
        else []
      else []
    { currentDeviceStatusCode := tempStatus, threadRunning := true,
      devicePropertyPublished := some message, stateCallbackCalls := pushes,
      shutterCallbackCalls := [] }

/-- The handler ChrolisShutter installs on the shutter callback slot at
its initialisation: the body only discards both arguments, so the
handler performs no property change for any input. -/
def chrolisShutterInstalledHandler (_ledNum _state : Int) : List (String × String) :=
  []

/-- The handler ChrolisStateDevice installs on the state callback slot:
index 0 republishes the State property with the pushed value, indices 1
to 6 republish the matching per-channel enable property with the value
cast to ViBoolean. -/
def chrolisStateInstalledHandler (ledNum state : Int) : List (String × String) :=
  if ledNum = 0 then [("State", toString state)]
  else if 1 ≤ ledNum ∧ ledNum ≤ 6 then
    [("LED Enable State " ++ toString ledNum, toString (state.emod 65536))]
  else []

/-- Replies of the parent hub lookup and of the hardware facade for
the calls one property handler invocation can make.  A getter reply of
none is a failed read; the C++ out parameter is then left unchanged, so
the caller retains its previous value. -/
structure FacadeEnv where
  hubAvailable : Bool
  isDeviceConnected : Bool
  setLEDEnableStatesErr : Nat
  getLEDEnableStates : Option (Fin NUM_LEDS → Nat)
  setSingleLEDEnableErr : Nat
  getSingleLEDEnableState : Option Nat
  setSingleLEDBrightnessErr : Nat
  getSingleLEDBrightnessState : Option Nat
  setShutterStateErr : Nat
  getShutterState : Option Bool

/-- Outcome of a BeforeGet handler over a last-known slot of type α:
the slot after the handler, the value handed to the property (none when
the handler returned before reaching the property), and the return
code. -/
structure GetResult (α : Type) where
  lastKnown : α
  presented : Option Int
  ret : Nat

/-- Outcome of the aggregate AfterSet handler: the per-channel
last-known states after the handler, the values republished through
OnPropertyChanged in order, the LED state vectors written to hardware,
and the return code. -/
structure SetAggResult where
  ledStates : Fin NUM_LEDS → Nat
  published : List Int
  hwWrites : List (Fin NUM_LEDS → Nat)
  ret : Nat

/-- Outcome of a per-channel AfterSet handler: the last-known cell for
the controlled channel after the handler, the republished values, the
(index, value) pairs written to hardware, and the return code. -/
structure SetCellResult where
  cell : Nat
  published : List Int
  hwWrites : List (Nat × Nat)
  ret : Nat

/-- ChrolisStateDevice OnState, BeforeGet branch: a missing hub fails
with the hub error before touching the property; a not-connected
device only logs, the hardware read is still attempted; a failed read
only logs and the previous last-known states are retained.  The
encoding of the possibly refreshed states is handed to the property
and the handler returns success. -/
def OnState_BeforeGet (env : FacadeEnv) (ledStates : Fin NUM_LEDS → Nat) :
    GetResult (Fin NUM_LEDS → Nat) :=
  if !env.hubAvailable then
    { lastKnown := ledStates, presented := none, ret := ERR_HUB_NOT_AVAILABLE }
  else
    let ledStates := (env.getLEDEnableStates).getD ledStates
    { lastKnown := ledStates,
      presented := some (EncodeLEDStatesInBits ledStates : Int), ret := DEVICE_OK }

/-- ChrolisStateDevice OnState, AfterSet branch, on incoming value val.
The fallback value is the encoding of the current last-known states.
A missing hub or a not-connected device republishes the fallback and
returns the matching error without writing.  An out-of-range value
republishes the fallback and returns the parameter error without
writing.  Otherwise the decoded vector is written; on a failure other
than the device-unavailable code the states are re-read (retaining the
old ones when the re-read also fails), the refreshed encoding is
republished, and the error is returned; on the device-unavailable code
nothing is republished and the error is returned; on success the
incoming value is republished and the last-known states are left
unchanged. -/
def OnState_AfterSet (env : FacadeEnv) (ledStates : Fin NUM_LEDS → Nat) (val : Int) :
    SetAggResult :=
  let currentLEDState := EncodeLEDStatesInBits ledStates
  if !env.hubAvailable then
    { ledStates := ledStates, published := [(currentLEDState : Int)], hwWrites := [],
      ret := ERR_HUB_NOT_AVAILABLE }
  else if !env.isDeviceConnected then
    { ledStates := ledStates, published := [(currentLEDState : Int)], hwWrites := [],
      ret := ERR_CHROLIS_NOT_AVAIL }
  else if (2 : Int) ^ NUM_LEDS ≤ val ∨ val < 0 then
    { ledStates := ledStates, published := [(currentLEDState : Int)], hwWrites := [],
      ret := ERR_PARAM_NOT_VALID }
  else
    let newStates := DecodeLEDStatesFromBits (val.toNat % 256)
    let err := env.setLEDEnableStatesErr
    if err ≠ 0 then
      if err ≠ ERR_CHROLIS_NOT_AVAIL then
        let ledStates := (env.getLEDEnableStates).getD ledStates
        { ledStates := ledStates,
          published := [(EncodeLEDStatesInBits ledStates : Int)],
          hwWrites := [newStates], ret := err }
      else
        { ledStates := ledStates, published := [], hwWrites := [newStates], ret := err }
    else
      { ledStates := ledStates, published := [val], hwWrites := [newStates],
        ret := DEVICE_OK }

/-- ChrolisStateDevice OnEnableStateChange, BeforeGet branch, over the
last-known cell of the controlled channel: a missing hub fails with the
hub error; not-connected only logs; a failed single-channel read only
logs and retains the cell; the possibly refreshed cell is handed to the
property and the handler returns success. -/
def OnEnableStateChange_BeforeGet (env : FacadeEnv) (cell : Nat) : GetResult Nat :=
  if !env.hubAvailable then
    { lastKnown := cell, presented := none, ret := ERR_HUB_NOT_AVAILABLE }
  else
    let cell := (env.getSingleLEDEnableState).getD cell
    { lastKnown := cell, presented := some (cell : Int), ret := DEVICE_OK }

/-- ChrolisStateDevice OnEnableStateChange, AfterSet branch, writing
value val to channel ledIndex.  A missing hub or a not-connected device
republishes the last-known cell and returns the matching error without
writing.  Otherwise the single-channel write is attempted; on any
failure the cell is re-read (retained when the re-read fails), the
refreshed cell is republished and the error returned; on success the
cell becomes the written value, which is republished. -/
def OnEnableStateChange_AfterSet (env : FacadeEnv) (cell : Nat) (ledIndex : Nat)
    (val : Nat) : SetCellResult :=
  if !env.hubAvailable then
    { cell := cell, published := [(cell : Int)], hwWrites := [],
      ret := ERR_HUB_NOT_AVAILABLE }
  else if !env.isDeviceConnected then
    { cell := cell, published := [(cell : Int)], hwWrites := [],
      ret := ERR_CHROLIS_NOT_AVAIL }
  else
    let err := env.setSingleLEDEnableErr
    if err ≠ 0 then
      let cell := (env.getSingleLEDEnableState).getD cell
      { cell := cell, published := [(cell : Int)], hwWrites := [(ledIndex, val)],
        ret := err }
    else
      { cell := val, published := [(val : Int)], hwWrites := [(ledIndex, val)],
        ret := DEVICE_OK }

/-- ChrolisStateDevice OnPowerChange, BeforeGet branch, over the
last-known brightness cell of the controlled channel; same shape as the
enable BeforeGet. -/
def OnPowerChange_BeforeGet (env : FacadeEnv) (cell : Nat) : GetResult Nat :=
  if !env.hubAvailable then
    { lastKnown := cell, presented := none, ret := ERR_HUB_NOT_AVAILABLE }
  else
    let cell := (env.getSingleLEDBrightnessState).getD cell
    { lastKnown := cell, presented := some (cell : Int), ret := DEVICE_OK }

/-- ChrolisStateDevice OnPowerChange, AfterSet branch, writing
brightness val to channel ledIndex; same shape as the enable
AfterSet. -/
def OnPowerChange_AfterSet (env : FacadeEnv) (cell : Nat) (ledIndex : Nat)
    (val : Nat) : SetCellResult :=
  if !env.hubAvailable then
    { cell := cell, published := [(cell : Int)], hwWrites := [],
      ret := ERR_HUB_NOT_AVAILABLE }
  else if !env.isDeviceConnected then
    { cell := cell, published := [(cell : Int)], hwWrites := [],
      ret := ERR_CHROLIS_NOT_AVAIL }
  else
    let err := env.setSingleLEDBrightnessErr
    if err ≠ 0 then
      let cell := (env.getSingleLEDBrightnessState).getD cell
      { cell := cell, published := [(cell : Int)], hwWrites := [(ledIndex, val)],
        ret := err }
    else
      { cell := val, published := [(val : Int)], hwWrites := [(ledIndex, val)],
        ret := DEVICE_OK }

/-- ChrolisShutter GetOpen, over the caller-supplied out parameter:
a missing hub fails with the hub error; a not-connected device fails
with the device-unavailable error and the read is not attempted; when
connected, the reply of the hardware read is stored in the out
parameter, a failed read leaves it unchanged, and the error code of the
read is discarded, so the handler returns success either way. -/
def ChrolisShutter_GetOpen (env : FacadeEnv) (openArg : Bool) : Bool × Nat :=
  if !env.hubAvailable then (openArg, ERR_HUB_NOT_AVAILABLE)
  else if !env.isDeviceConnected then (openArg, ERR_CHROLIS_NOT_AVAIL)
  else ((env.getShutterState).getD openArg, DEVICE_OK)

/-- ChrolisShutter SetOpen: a missing hub or a not-connected device
returns the matching error without writing; otherwise the shutter
write is attempted and its error, if any, is returned.  The first
component lists the values written to hardware. -/
def ChrolisShutter_SetOpen (env : FacadeEnv) (openVal : Bool) : List Bool × Nat :=
  if !env.hubAvailable then ([], ERR_HUB_NOT_AVAILABLE)
  else if !env.isDeviceConnected then ([], ERR_CHROLIS_NOT_AVAIL)
  else if env.setShutterStateErr ≠ 0 then ([openVal], env.setShutterStateErr)
  else ([openVal], DEVICE_OK)

/-! Concrete environments used by the counterexamples and witnesses. -/

/-- Everything available and every facade call succeeding. -/
def envAllOK : FacadeEnv :=
  { hubAvailable := true, isDeviceConnected := true,
    setLEDEnableStatesErr := 0, getLEDEnableStates := some (fun _ => 0),
    setSingleLEDEnableErr := 0, getSingleLEDEnableState := some 0,
    setSingleLEDBrightnessErr := 0, getSingleLEDBrightnessState := some 0,
    setShutterStateErr := 0, getShutterState := some false }

/-- Hub available, device connected, single-channel writes failing with
the device-unavailable code, re-reads succeeding with value 0. -/
def envSingleWriteUnavail : FacadeEnv :=
  { hubAvailable := true, isDeviceConnected := true,
    setLEDEnableStatesErr := 0, getLEDEnableStates := some (fun _ => 0),
    setSingleLEDEnableErr := ERR_CHROLIS_NOT_AVAIL, getSingleLEDEnableState := some 0,
    setSingleLEDBrightnessErr := ERR_CHROLIS_NOT_AVAIL, getSingleLEDBrightnessState := some 0,
    setShutterStateErr := 0, getShutterState := some false }

/-- Hub available but device not connected; the shutter read would
report true were it consulted. -/
def envNotConnected : FacadeEnv :=
  { hubAvailable := true, isDeviceConnected := false,
    setLEDEnableStatesErr := 0, getLEDEnableStates := some (fun _ => 0),
    setSingleLEDEnableErr := 0, getSingleLEDEnableState := some 0,
    setSingleLEDBrightnessErr := 0, getSingleLEDBrightnessState := some 0,
    setShutterStateErr := 0, getShutterState := some true }

/-- No hub resolvable. -/
def envNoHub : FacadeEnv :=
  { hubAvailable := false, isDeviceConnected := true,
    setLEDEnableStatesErr := 0, getLEDEnableStates := some (fun _ => 0),
    setSingleLEDEnableErr := 0, getSingleLEDEnableState := some 0,
    setSingleLEDBrightnessErr := 0, getSingleLEDBrightnessState := some 0,
    setShutterStateErr := 0, getShutterState := some false }

/-- Poll environment: connected, status read succeeding with code 4
(interlock bit), enable-state re-read succeeding with all channels
off. -/
def envPollInterlock : PollEnv :=
  { isDeviceConnected := true, getDeviceStatusErr := 0, deviceStatus := 4,
    getLEDEnableStates := some (fun _ => 0) }

/-! Claim theorems. -/

/-- Claim C1: the bitmask codec is a lossless bijection between
length-six boolean vectors and the integers in [0, 63]: decoding the
encoding of any boolean vector (as ViBoolean values) gives the vector
back, and encoding the decoding of any integer below 2 to the 6 gives
the integer back. -/
theorem codec_roundtrip_bijection :
    (∀ v : Fin NUM_LEDS → Bool,
      DecodeLEDStatesFromBits
          (EncodeLEDStatesInBits (fun i => if v i then VI_TRUE else VI_FALSE))
        = fun i => if v i then VI_TRUE else VI_FALSE) ∧
    (∀ x : Nat, x < 2 ^ NUM_LEDS →
      EncodeLEDStatesInBits (DecodeLEDStatesFromBits x) = x) := by
  constructor
  · decide
  · decide

/-- Witness for claim C1 at the vector enabling channels 0 and 2 and at
the integer 37. -/
theorem codec_roundtrip_bijection_witness :
    (DecodeLEDStatesFromBits
        (EncodeLEDStatesInBits
          (fun i => if (fun j : Fin NUM_LEDS => j.val == 0 || j.val == 2) i
            then VI_TRUE else VI_FALSE))
      = fun i => if (fun j : Fin NUM_LEDS => j.val == 0 || j.val == 2) i
          then VI_TRUE else VI_FALSE) ∧
    EncodeLEDStatesInBits (DecodeLEDStatesFromBits 37) = 37 :=
  ⟨codec_roundtrip_bijection.1 (fun j => j.val == 0 || j.val == 2),
   codec_roundtrip_bijection.2 37 (by decide)⟩

/-- Hub available, device connected, aggregate write failing with the
device-unavailable code. -/
def envAggWriteUnavail : FacadeEnv :=
  { hubAvailable := true, isDeviceConnected := true,
    setLEDEnableStatesErr := ERR_CHROLIS_NOT_AVAIL, getLEDEnableStates := some (fun _ => 0),
    setSingleLEDEnableErr := 0, getSingleLEDEnableState := some 0,
    setSingleLEDBrightnessErr := 0, getSingleLEDBrightnessState := some 0,
    setShutterStateErr := 0, getShutterState := some false }

/-- Hub available, device connected, aggregate write failing with a
generic transport error 7, re-read succeeding with all channels off. -/
def envAggWriteFail : FacadeEnv :=
  { hubAvailable := true, isDeviceConnected := true,
    setLEDEnableStatesErr := 7, getLEDEnableStates := some (fun _ => 0),
    setSingleLEDEnableErr := 0, getSingleLEDEnableState := some 0,
    setSingleLEDBrightnessErr := 0, getSingleLEDBrightnessState := some 0,
    setShutterStateErr := 0, getShutterState := some false }

/-- Claim C2 counterexample: the hub is available, the device is
connected, and the per-channel enable write of value 1 fails with
exactly the device-unavailable code; the claim predicts no republish,
yet the handler re-reads and republishes the refreshed value 0, which
is not the caller value 1. -/
theorem perchannel_unavail_write_still_republishes :
    (OnEnableStateChange_AfterSet envSingleWriteUnavail 0 0 1).ret
      = ERR_CHROLIS_NOT_AVAIL ∧
    (OnEnableStateChange_AfterSet envSingleWriteUnavail 0 0 1).published = [(0 : Int)] ∧
    (0 : Int) ≠ 1 := by
  refine ⟨rfl, rfl, by decide⟩

/-- Claim C2 amended: the device-unavailable carve-out exists only on
the aggregate-mask write: there a failure with exactly the
device-unavailable code returns the error with no republish and no
state change, and any other failure re-reads the states, republishes
the refreshed encoding and returns the error.  The per-channel enable
and brightness writes instead re-read and republish on every write
failure, the device-unavailable code included, and return the error. -/
theorem write_failure_fallback_policy (env : FacadeEnv)
    (ledStates : Fin NUM_LEDS → Nat) (cell bcell i v bi bv : Nat) (val : Int)
    (hhub : env.hubAvailable = true) (hconn : env.isDeviceConnected = true)
    (hval : ¬((2 : Int) ^ NUM_LEDS ≤ val ∨ val < 0)) :
    (env.setLEDEnableStatesErr = ERR_CHROLIS_NOT_AVAIL →
      OnState_AfterSet env ledStates val =
        { ledStates := ledStates, published := [],
          hwWrites := [DecodeLEDStatesFromBits (val.toNat % 256)],
          ret := ERR_CHROLIS_NOT_AVAIL }) ∧
    (env.setLEDEnableStatesErr ≠ 0 → env.setLEDEnableStatesErr ≠ ERR_CHROLIS_NOT_AVAIL →
      OnState_AfterSet env ledStates val =
        { ledStates := (env.getLEDEnableStates).getD ledStates,
          published := [(EncodeLEDStatesInBits ((env.getLEDEnableStates).getD ledStates) : Int)],
          hwWrites := [DecodeLEDStatesFromBits (val.toNat % 256)],
          ret := env.setLEDEnableStatesErr }) ∧
    (env.setSingleLEDEnableErr ≠ 0 →
      OnEnableStateChange_AfterSet env cell i v =
        { cell := (env.getSingleLEDEnableState).getD cell,
          published := [((env.getSingleLEDEnableState).getD cell : Int)],
          hwWrites := [(i, v)], ret := env.setSingleLEDEnableErr }) ∧
    (env.setSingleLEDBrightnessErr ≠ 0 →
      OnPowerChange_AfterSet env bcell bi bv =
        { cell := (env.getSingleLEDBrightnessState).getD bcell,
          published := [((env.getSingleLEDBrightnessState).getD bcell : Int)],
          hwWrites := [(bi, bv)], ret := env.setSingleLEDBrightnessErr }) := by
  refine ⟨?_, ?_, ?_, ?_⟩
  · intro h
    simp [OnState_AfterSet, hhub, hconn, hval, h, ERR_CHROLIS_NOT_AVAIL]
  · intro h0 hne
    simp [OnState_AfterSet, hhub, hconn, hval, h0, hne]
  · intro h0
    simp [OnEnableStateChange_AfterSet, hhub, hconn, h0]
  · intro h0
    simp [OnPowerChange_AfterSet, hhub, hconn, h0]

/-- Witness for the amended claim C2, at value 5 over the all-off
state for the aggregate branches and at the environments where the
single-channel writes fail with the device-unavailable code. -/
theorem write_failure_fallback_policy_witness :
    (OnState_AfterSet envAggWriteUnavail (fun _ => 0) 5 =
      { ledStates := fun _ => 0, published := [],
        hwWrites := [DecodeLEDStatesFromBits ((5 : Int).toNat % 256)],
        ret := ERR_CHROLIS_NOT_AVAIL }) ∧
    (OnState_AfterSet envAggWriteFail (fun _ => 0) 5 =
      { ledStates := (envAggWriteFail.getLEDEnableStates).getD (fun _ => 0),
        published := [(EncodeLEDStatesInBits
          ((envAggWriteFail.getLEDEnableStates).getD (fun _ => 0)) : Int)],
        hwWrites := [DecodeLEDStatesFromBits ((5 : Int).toNat % 256)], ret := 7 }) ∧
    (OnEnableStateChange_AfterSet envSingleWriteUnavail 0 2 1 =
      { cell := (envSingleWriteUnavail.getSingleLEDEnableState).getD 0,
        published := [((envSingleWriteUnavail.getSingleLEDEnableState).getD 0 : Int)],
        hwWrites := [(2, 1)], ret := ERR_CHROLIS_NOT_AVAIL }) ∧
    (OnPowerChange_AfterSet envSingleWriteUnavail 0 2 50 =
      { cell := (envSingleWriteUnavail.getSingleLEDBrightnessState).getD 0,
        published := [((envSingleWriteUnavail.getSingleLEDBrightnessState).getD 0 : Int)],
        hwWrites := [(2, 50)], ret := ERR_CHROLIS_NOT_AVAIL }) :=
  ⟨(write_failure_fallback_policy envAggWriteUnavail (fun _ => 0) 0 0 0 0 0 0 5
      rfl rfl (by decide)).1 rfl,
   (write_failure_fallback_policy envAggWriteFail (fun _ => 0) 0 0 0 0 0 0 5
      rfl rfl (by decide)).2.1 (by decide) (by decide),
   (write_failure_fallback_policy envSingleWriteUnavail (fun _ => 0) 0 0 2 1 0 0 5
      rfl rfl (by decide)).2.2.1 (by decide),
   (write_failure_fallback_policy envSingleWriteUnavail (fun _ => 0) 0 0 0 0 2 50 5
      rfl rfl (by decide)).2.2.2 (by decide)⟩

/-- Claim C3 counterexample: with the hub resolvable but the device not
connected, the shutter GetOpen returns the device-unavailable error,
and the hardware reply (true) is never consulted: the out parameter
keeps the caller value false.  The claim predicts that a not-connected
device is soft on every read path and the get never fails once the hub
resolves. -/
theorem shutter_getopen_hard_fails_when_not_connected :
    ChrolisShutter_GetOpen envNotConnected false = (false, ERR_CHROLIS_NOT_AVAIL) ∧
    envNotConnected.getShutterState = some true ∧
    ERR_CHROLIS_NOT_AVAIL ≠ DEVICE_OK := by
  refine ⟨rfl, rfl, by decide⟩

/-- Claim C3 amended: on the three state-device read paths (aggregate
mask, per-channel enable, per-channel brightness) the claim holds: once
the hub resolves the get returns success, not-connected only logs, the
read is still attempted, and a failed read presents the retained
last-known value.  The shutter GetOpen instead treats not-connected as
a hard failure, returning the device-unavailable error without
attempting the read; when connected it presents the hardware reply,
keeps the caller value on a failed read, and discards the read error. -/
theorem read_path_availability (env : FacadeEnv)
    (ledStates : Fin NUM_LEDS → Nat) (cell bcell : Nat) (openArg : Bool)
    (hhub : env.hubAvailable = true) :
    (OnState_BeforeGet env ledStates).ret = DEVICE_OK ∧
    (OnState_BeforeGet env ledStates).presented
      = some (EncodeLEDStatesInBits ((env.getLEDEnableStates).getD ledStates) : Int) ∧
    (OnEnableStateChange_BeforeGet env cell).ret = DEVICE_OK ∧
    (OnEnableStateChange_BeforeGet env cell).presented
      = some ((env.getSingleLEDEnableState).getD cell : Int) ∧
    (OnPowerChange_BeforeGet env bcell).ret = DEVICE_OK ∧
    (OnPowerChange_BeforeGet env bcell).presented
      = some ((env.getSingleLEDBrightnessState).getD bcell : Int) ∧
    (env.isDeviceConnected = true →
      ChrolisShutter_GetOpen env openArg = ((env.getShutterState).getD openArg, DEVICE_OK)) ∧
    (env.isDeviceConnected = false →
      ChrolisShutter_GetOpen env openArg = (openArg, ERR_CHROLIS_NOT_AVAIL)) := by
  refine ⟨?_, ?_, ?_, ?_, ?_, ?_, ?_, ?_⟩
  · simp [OnState_BeforeGet, hhub]
  · simp [OnState_BeforeGet, hhub]
  · simp [OnEnableStateChange_BeforeGet, hhub]
  · simp [OnEnableStateChange_BeforeGet, hhub]
  · simp [OnPowerChange_BeforeGet, hhub]
  · simp [OnPowerChange_BeforeGet, hhub]
  · intro hconn
    simp [ChrolisShutter_GetOpen, hhub, hconn]
  · intro hconn
    simp [ChrolisShutter_GetOpen, hhub, hconn]

/-- Witness for the amended claim C3 at the not-connected environment
over the all-on last-known states. -/
theorem read_path_availability_witness :
    (OnState_BeforeGet envNotConnected (fun _ => 1)).ret = DEVICE_OK ∧
    (OnState_BeforeGet envNotConnected (fun _ => 1)).presented
      = some (EncodeLEDStatesInBits
          ((envNotConnected.getLEDEnableStates).getD (fun _ => 1)) : Int) ∧
    (OnEnableStateChange_BeforeGet envNotConnected 1).ret = DEVICE_OK ∧
    (OnEnableStateChange_BeforeGet envNotConnected 1).presented
      = some ((envNotConnected.getSingleLEDEnableState).getD 1 : Int) ∧
    (OnPowerChange_BeforeGet envNotConnected 1).ret = DEVICE_OK ∧
    (OnPowerChange_BeforeGet envNotConnected 1).presented
      = some ((envNotConnected.getSingleLEDBrightnessState).getD 1 : Int) ∧
    (envNotConnected.isDeviceConnected = true →
      ChrolisShutter_GetOpen envNotConnected false
        = ((envNotConnected.getShutterState).getD false, DEVICE_OK)) ∧
    (envNotConnected.isDeviceConnected = false →
      ChrolisShutter_GetOpen envNotConnected false
        = (false, ERR_CHROLIS_NOT_AVAIL)) :=
  read_path_availability envNotConnected (fun _ => 1) 1 1 false rfl

/-- Claim C4 counterexample: a successful aggregate write of value 5
over the all-off last-known states returns success and republishes 5,
yet the last-known states still encode to 0: the aggregate success path
does not update the last-known value to the written value. -/
theorem aggregate_success_skips_lastknown_update :
    (OnState_AfterSet envAllOK (fun _ => 0) 5).ret = DEVICE_OK ∧
    (OnState_AfterSet envAllOK (fun _ => 0) 5).published = [(5 : Int)] ∧
    EncodeLEDStatesInBits (OnState_AfterSet envAllOK (fun _ => 0) 5).ledStates = 0 ∧
    (0 : Nat) ≠ 5 := by
  refine ⟨rfl, rfl, rfl, by decide⟩

/-- Claim C4 amended: a successful per-channel enable or brightness
write updates the last-known cell to the written value, republishes it
and returns success; a successful aggregate-mask write republishes the
written value and returns success but leaves the last-known per-channel
states unchanged (they are only refreshed by later reads or failures). -/
theorem write_success_policy (env : FacadeEnv)
    (ledStates : Fin NUM_LEDS → Nat) (cell bcell i v bi bv : Nat) (val : Int)
    (hhub : env.hubAvailable = true) (hconn : env.isDeviceConnected = true)
    (hval : ¬((2 : Int) ^ NUM_LEDS ≤ val ∨ val < 0)) :
    (env.setLEDEnableStatesErr = 0 →
      OnState_AfterSet env ledStates val =
        { ledStates := ledStates, published := [val],
          hwWrites := [DecodeLEDStatesFromBits (val.toNat % 256)], ret := DEVICE_OK }) ∧
    (env.setSingleLEDEnableErr = 0 →
      OnEnableStateChange_AfterSet env cell i v =
        { cell := v, published := [(v : Int)], hwWrites := [(i, v)], ret := DEVICE_OK }) ∧
    (env.setSingleLEDBrightnessErr = 0 →
      OnPowerChange_AfterSet env bcell bi bv =
        { cell := bv, published := [(bv : Int)], hwWrites := [(bi, bv)],
          ret := DEVICE_OK }) := by
  refine ⟨?_, ?_, ?_⟩
  · intro h
    simp [OnState_AfterSet, hhub, hconn, hval, h, DEVICE_OK]
  · intro h
    simp [OnEnableStateChange_AfterSet, hhub, hconn, h, DEVICE_OK]
  · intro h
    simp [OnPowerChange_AfterSet, hhub, hconn, h, DEVICE_OK]

/-- Witness for the amended claim C4 at the all-success environment,
value 5 for the aggregate, channel 2 enable 1, channel 3 brightness
700. -/
theorem write_success_policy_witness :
    (OnState_AfterSet envAllOK (fun _ => 0) 5 =
      { ledStates := fun _ => 0, published := [5],
        hwWrites := [DecodeLEDStatesFromBits ((5 : Int).toNat % 256)],
        ret := DEVICE_OK }) ∧
    (OnEnableStateChange_AfterSet envAllOK 0 2 1 =
      { cell := 1, published := [(1 : Int)], hwWrites := [(2, 1)], ret := DEVICE_OK }) ∧
    (OnPowerChange_AfterSet envAllOK 0 3 700 =
      { cell := 700, published := [(700 : Int)], hwWrites := [(3, 700)],
        ret := DEVICE_OK }) :=
  ⟨(write_success_policy envAllOK (fun _ => 0) 0 0 2 1 3 700 5
      rfl rfl (by decide)).1 rfl,
   (write_success_policy envAllOK (fun _ => 0) 0 0 2 1 3 700 5
      rfl rfl (by decide)).2.1 rfl,
   (write_success_policy envAllOK (fun _ => 0) 0 0 2 1 3 700 5
      rfl rfl (by decide)).2.2 rfl⟩

/-- Claim C8: an aggregate write whose incoming value lies outside
[0, 63], with the hub resolvable and the device connected, returns the
parameter error, republishes the encoding of the pre-write last-known
states, leaves them unchanged and attempts no hardware write. -/
theorem aggregate_out_of_range_rejected (env : FacadeEnv)
    (ledStates : Fin NUM_LEDS → Nat) (val : Int)
    (hhub : env.hubAvailable = true) (hconn : env.isDeviceConnected = true)
    (hval : (2 : Int) ^ NUM_LEDS ≤ val ∨ val < 0) :
    OnState_AfterSet env ledStates val =
      { ledStates := ledStates,
        published := [(EncodeLEDStatesInBits ledStates : Int)],
        hwWrites := [], ret := ERR_PARAM_NOT_VALID } := by
  simp [OnState_AfterSet, hhub, hconn, hval]

/-- Witness for claim C8 at the boundary value 64 over the all-off
states. -/
theorem aggregate_out_of_range_rejected_witness :
    OnState_AfterSet envAllOK (fun _ => 0) 64 =
      { ledStates := fun _ => 0,
        published := [(EncodeLEDStatesInBits (fun _ => 0) : Int)],
        hwWrites := [], ret := ERR_PARAM_NOT_VALID } :=
  aggregate_out_of_range_rejected envAllOK (fun _ => 0) 64 rfl rfl (by decide)

/-- Claim C9: every state-device property write invoked with no hub
resolvable republishes the last-known value, leaving it unchanged,
returns the hub-unavailable error, and attempts no hardware write; the
handlers are total functions, so no exception crosses this boundary. -/
theorem hub_unavailable_write_rejected (env : FacadeEnv)
    (ledStates : Fin NUM_LEDS → Nat) (cell bcell i v bi bv : Nat) (val : Int)
    (hhub : env.hubAvailable = false) :
    OnState_AfterSet env ledStates val =
      { ledStates := ledStates,
        published := [(EncodeLEDStatesInBits ledStates : Int)],
        hwWrites := [], ret := ERR_HUB_NOT_AVAILABLE } ∧
    OnEnableStateChange_AfterSet env cell i v =
      { cell := cell, published := [(cell : Int)], hwWrites := [],
        ret := ERR_HUB_NOT_AVAILABLE } ∧
    OnPowerChange_AfterSet env bcell bi bv =
      { cell := bcell, published := [(bcell : Int)], hwWrites := [],
        ret := ERR_HUB_NOT_AVAILABLE } := by
  refine ⟨?_, ?_, ?_⟩
  · simp [OnState_AfterSet, hhub]
  · simp [OnEnableStateChange_AfterSet, hhub]
  · simp [OnPowerChange_AfterSet, hhub]

/-- Witness for claim C9 at the no-hub environment, aggregate value 3,
channel 1 enable 1, channel 4 brightness 200, over all-off states. -/
theorem hub_unavailable_write_rejected_witness :
    OnState_AfterSet envNoHub (fun _ => 0) 3 =
      { ledStates := fun _ => 0,
        published := [(EncodeLEDStatesInBits (fun _ => 0) : Int)],
        hwWrites := [], ret := ERR_HUB_NOT_AVAILABLE } ∧
    OnEnableStateChange_AfterSet envNoHub 0 1 1 =
      { cell := 0, published := [(0 : Int)], hwWrites := [],
        ret := ERR_HUB_NOT_AVAILABLE } ∧
    OnPowerChange_AfterSet envNoHub 0 4 200 =
      { cell := 0, published := [(0 : Int)], hwWrites := [],
        ret := ERR_HUB_NOT_AVAILABLE } :=
  hub_unavailable_write_rejected envNoHub (fun _ => 0) 0 0 1 1 4 200 3 rfl

/-- Claim C5 counterexample: the stored code is 0 and the freshly read
code is 4, so the code changed and the new code is non-zero; the claim
predicts a push of the re-read enable states, yet the iteration pushes
nothing, because the gate tests the previously stored code. -/
theorem poll_no_push_on_transition_to_nonzero :
    (StatusChangedPollingThread_iteration envPollInterlock 0).stateCallbackCalls = [] ∧
    (0 : Nat) ≠ envPollInterlock.deviceStatus ∧
    envPollInterlock.deviceStatus ≠ 0 := by
  refine ⟨rfl, by decide, by decide⟩

/-- Claim C5 amended: in an iteration with the device connected and the
status read succeeding, the enable states are re-read and pushed as one
aggregate value followed by six per-channel values exactly when the
code changed, the previously stored code is non-zero and the re-read
succeeds; in particular a transition from nominal to a non-nominal code
pushes nothing, while a transition from a non-nominal code back to
nominal does push. -/
theorem poll_push_iff_previous_code_nonzero (env : PollEnv) (curCode : Nat)
    (hconn : env.isDeviceConnected = true) (hok : env.getDeviceStatusErr = 0) :
    ((StatusChangedPollingThread_iteration env curCode).stateCallbackCalls ≠ [] ↔
      curCode ≠ env.deviceStatus ∧ curCode ≠ 0 ∧
        (env.getLEDEnableStates).isSome = true) ∧
    (∀ s, env.getLEDEnableStates = some s → curCode ≠ env.deviceStatus → curCode ≠ 0 →
      (StatusChangedPollingThread_iteration env curCode).stateCallbackCalls =
        [((0 : Int), (EncodeLEDStatesInBits s : Int)),
         ((1 : Int), (s ⟨0, by decide⟩ : Int)), ((2 : Int), (s ⟨1, by decide⟩ : Int)),
         ((3 : Int), (s ⟨2, by decide⟩ : Int)), ((4 : Int), (s ⟨3, by decide⟩ : Int)),
         ((5 : Int), (s ⟨4, by decide⟩ : Int)), ((6 : Int), (s ⟨5, by decide⟩ : Int))]) := by
  constructor
  · by_cases hch : curCode = env.deviceStatus
    · simp [StatusChangedPollingThread_iteration, hconn, hok, hch]
    · by_cases h0 : curCode = 0
      · simp [StatusChangedPollingThread_iteration, hconn, hok, hch, h0]
      · cases hs : env.getLEDEnableStates with
        | none => simp [StatusChangedPollingThread_iteration, hconn, hok, hch, h0, hs]
        | some s => simp [StatusChangedPollingThread_iteration, hconn, hok, hch, h0, hs]
  · intro s hs hch h0
    simp [StatusChangedPollingThread_iteration, hconn, hok, hch, h0, hs]

/-- Witness for the amended claim C5: the stored code 4 differs from
the freshly read code 4 when the stored code is 0; here stored code 9
and read code 4, re-read giving all channels off, so the seven pushes
happen. -/
theorem poll_push_iff_previous_code_nonzero_witness :
    ((StatusChangedPollingThread_iteration envPollInterlock 9).stateCallbackCalls ≠ [] ↔
      (9 : Nat) ≠ envPollInterlock.deviceStatus ∧ (9 : Nat) ≠ 0 ∧
        (envPollInterlock.getLEDEnableStates).isSome = true) ∧
    (StatusChangedPollingThread_iteration envPollInterlock 9).stateCallbackCalls =
      [((0 : Int), (EncodeLEDStatesInBits (fun _ => 0) : Int)),
       ((1 : Int), ((fun _ : Fin NUM_LEDS => (0 : Nat)) ⟨0, by decide⟩ : Int)),
       ((2 : Int), ((fun _ : Fin NUM_LEDS => (0 : Nat)) ⟨1, by decide⟩ : Int)),
       ((3 : Int), ((fun _ : Fin NUM_LEDS => (0 : Nat)) ⟨2, by decide⟩ : Int)),
       ((4 : Int), ((fun _ : Fin NUM_LEDS => (0 : Nat)) ⟨3, by decide⟩ : Int)),
       ((5 : Int), ((fun _ : Fin NUM_LEDS => (0 : Nat)) ⟨4, by decide⟩ : Int)),
       ((6 : Int), ((fun _ : Fin NUM_LEDS => (0 : Nat)) ⟨5, by decide⟩ : Int))] :=
  ⟨(poll_push_iff_previous_code_nonzero envPollInterlock 9 rfl rfl).1,
   (poll_push_iff_previous_code_nonzero envPollInterlock 9 rfl rfl).2
     (fun _ => 0) rfl (by decide) (by decide)⟩

/-- Claim C6 counterexample: the stored code is 0 and the code read in
this iteration is 4; the claim predicts the status property is
republished with the decoding of 4, yet the iteration publishes the
decoding of the stored code 0, the nominal text. -/
theorem poll_publishes_stale_status_message :
    (StatusChangedPollingThread_iteration envPollInterlock 0).devicePropertyPublished
      = some "No Error" ∧
    statusMessage envPollInterlock.deviceStatus = "Interlock is Open" ∧
    ("No Error" : String) ≠ "Interlock is Open" := by
  refine ⟨rfl, rfl, by decide⟩

/-- Claim C6 amended: in every iteration with the device connected and
the status read succeeding, the status property is unconditionally
republished, even when the code is unchanged, but with the decoding of
the previously stored status code, not of the code read in this
iteration; the freshly read code is only stored for the next
iteration. -/
theorem poll_republishes_previous_code_decoding (env : PollEnv) (curCode : Nat)
    (hconn : env.isDeviceConnected = true) (hok : env.getDeviceStatusErr = 0) :
    (StatusChangedPollingThread_iteration env curCode).devicePropertyPublished
      = some (statusMessage curCode) ∧
    (StatusChangedPollingThread_iteration env curCode).currentDeviceStatusCode
      = env.deviceStatus := by
  constructor
  · simp [StatusChangedPollingThread_iteration, hconn, hok]
  · simp [StatusChangedPollingThread_iteration, hconn, hok]

/-- Witness for the amended claim C6: unchanged code 4 is republished
as its own decoding. -/
theorem poll_republishes_previous_code_decoding_witness :
    (StatusChangedPollingThread_iteration envPollInterlock 4).devicePropertyPublished
      = some (statusMessage 4) ∧
    (StatusChangedPollingThread_iteration envPollInterlock 4).currentDeviceStatusCode
      = envPollInterlock.deviceStatus :=
  poll_republishes_previous_code_decoding envPollInterlock 4 rfl rfl

/-- One conditional append block keeps any text already embedded in the
middle of the accumulated message: appending only ever extends the
message on the right. -/
lemma appendCondition_exists_middle (cond : Prop) [Decidable cond]
    (m t middle : String) (h : ∃ p s, m = p ++ (middle ++ s)) :
    ∃ p s, appendCondition cond m t = p ++ (middle ++ s) := by
  obtain ⟨p, s, hm⟩ := h
  unfold appendCondition
  by_cases hc : cond
  · rw [if_pos hc]
    by_cases hl : m.length > 0
    · rw [if_pos hl, hm]
      exact ⟨p, s ++ (", " ++ t), by simp [String.append_assoc]⟩
    · rw [if_neg hl, hm]
      exact ⟨p, s ++ t, by simp [String.append_assoc]⟩
  · rw [if_neg hc]
    exact ⟨p, s, hm⟩

/-- A message with a non-empty text embedded in its middle is
non-empty. -/
lemma exists_middle_length_pos (m middle : String) (hmid : middle.length > 0)
    (h : ∃ p s, m = p ++ (middle ++ s)) : m.length > 0 := by
  obtain ⟨p, s, rfl⟩ := h
  simp [String.length_append]
  omega

/-- After the bit 2 block of the decoding, the interlock text is
embedded in the accumulated message whenever bit 2 is set. -/
lemma statusAfterBit2_exists_interlock (c : Nat) (h : c &&& (1 <<< 2) ≥ 1) :
    ∃ p s, statusAfterBit2 c = p ++ ("Interlock is Open" ++ s) := by
  unfold statusAfterBit2 appendCondition
  rw [if_pos h]
  by_cases hl : (statusAfterBit1 c).length > 0
  · rw [if_pos hl]
    exact ⟨statusAfterBit1 c ++ ", ", "", by rw [String.append_empty]⟩
  · rw [if_neg hl]
    exact ⟨statusAfterBit1 c, "", by rw [String.append_empty]⟩

/-- Claim C7: the status decoding is deterministic and total: code 0
decodes to the nominal text; every code with bit 2 set contains the
interlock text in its message, whatever the other bits; every non-zero
code with none of the seven recognised bits set decodes to exactly the
unknown-status fallback; and no code decodes to the empty string. -/
theorem status_decode_determinism :
    statusMessage 0 = "No Error" ∧
    (∀ c : Nat, c &&& (1 <<< 2) ≥ 1 →
      ∃ p s, statusMessage c = p ++ ("Interlock is Open" ++ s)) ∧
    (∀ c : Nat, c ≠ 0 → (∀ i : Nat, i < 7 → c &&& (1 <<< i) = 0) →
      statusMessage c = "Unknown Status") ∧
    (∀ c : Nat, statusMessage c ≠ "") := by
  refine ⟨rfl, ?_, ?_, ?_⟩
  · intro c h
    have hc0 : c ≠ 0 := by
      intro h0
      subst h0
      simp [Nat.zero_and] at h
    have h2 := statusAfterBit2_exists_interlock c h
    have h3 : ∃ p s, statusAfterBit3 c = p ++ ("Interlock is Open" ++ s) := by
      unfold statusAfterBit3
      exact appendCondition_exists_middle _ _ _ _ h2
    have h4 : ∃ p s, statusAfterBit4 c = p ++ ("Interlock is Open" ++ s) := by
      unfold statusAfterBit4
      exact appendCondition_exists_middle _ _ _ _ h3
    have h5 : ∃ p s, statusAfterBit5 c = p ++ ("Interlock is Open" ++ s) := by
      unfold statusAfterBit5
      exact appendCondition_exists_middle _ _ _ _ h4
    have h6 : ∃ p s, statusAfterBit6 c = p ++ ("Interlock is Open" ++ s) := by
      unfold statusAfterBit6
      exact appendCondition_exists_middle _ _ _ _ h5
    have hlen : (statusAfterBit6 c).length > 0 :=
      exists_middle_length_pos _ _ (by decide) h6
    unfold statusMessage
    rw [if_neg hc0, if_neg (by omega : ¬(statusAfterBit6 c).length = 0)]
    exact h6
  · intro c hc0 hbits
    have f : ∀ k : Nat, k < 7 → ¬(c &&& (1 <<< k) ≥ 1) := by
      intro k hk hge
      rw [hbits k hk] at hge
      omega
    have e0 : statusAfterBit0 c = "" := by
      unfold statusAfterBit0
      rw [if_neg (f 0 (by omega))]
    have e1 : statusAfterBit1 c = "" := by
      unfold statusAfterBit1 appendCondition
      rw [if_neg (f 1 (by omega))]
      exact e0
    have e2 : statusAfterBit2 c = "" := by
      unfold statusAfterBit2 appendCondition
      rw [if_neg (f 2 (by omega))]
      exact e1
    have e3 : statusAfterBit3 c = "" := by
      unfold statusAfterBit3 appendCondition
      rw [if_neg (f 3 (by omega))]
      exact e2
    have e4 : statusAfterBit4 c = "" := by
      unfold statusAfterBit4 appendCondition
      rw [if_neg (f 4 (by omega))]
      exact e3
    have e5 : statusAfterBit5 c = "" := by
      unfold statusAfterBit5 appendCondition
      rw [if_neg (f 5 (by omega))]
      exact e4
    have e6 : statusAfterBit6 c = "" := by
      unfold statusAfterBit6 appendCondition
      rw [if_neg (f 6 (by omega))]
      exact e5
    simp [statusMessage, hc0, e6]
  · intro c
    by_cases h0 : c = 0
    · rw [h0]
      decide
    · by_cases hl : (statusAfterBit6 c).length = 0
      · simp only [statusMessage, h0, if_false, hl, if_true]
        decide
      · simp only [statusMessage, h0, if_false, hl, if_true]
        intro heq
        rw [heq] at hl
        exact hl rfl

/-- Witness for claim C7 at codes 13 (bits 0, 2 and 3 set), 128 (only
bit 7 set) and 7. -/
theorem status_decode_determinism_witness :
    statusMessage 0 = "No Error" ∧
    (∃ p s, statusMessage 13 = p ++ ("Interlock is Open" ++ s)) ∧
    statusMessage 128 = "Unknown Status" ∧
    statusMessage 7 ≠ "" :=
  ⟨status_decode_determinism.1,
   status_decode_determinism.2.1 13 (by decide),
   status_decode_determinism.2.2.1 128 (by decide) (by decide),
   status_decode_determinism.2.2.2 7⟩

/-- Claim C10: the shutter callback slot never produces an effect: no
iteration of the polling thread invokes the shutter callback, for any
environment and any stored code, and the handler the shutter installs
at its initialisation performs no property change for any input. -/
theorem shutter_callback_never_invoked :
    (∀ (env : PollEnv) (curCode : Nat),
      (StatusChangedPollingThread_iteration env curCode).shutterCallbackCalls = []) ∧
    (∀ ledNum stateVal : Int, chrolisShutterInstalledHandler ledNum stateVal = []) := by
  constructor
  · intro env curCode
    unfold StatusChangedPollingThread_iteration
    split
    · rfl
    · split
      · rfl
      · rfl
  · intro ledNum stateVal
    rfl

end Chrolis
